import Mathlib

/-!
Verification of the sync-rs synchronization-primitive crate against its
natural-language specification.  The Rust modules `mutex.rs`, `condvar.rs`,
`barrier.rs`, `rwlock.rs` and the unix `sys` bindings are shallowly embedded
as pure Lean functions: every operation becomes an explicit state-passing
function that additionally records a trace of the primitive events it
performs (raw OS lock calls, poison-flag writes, panics), and every fallible
operation returns an `Except` value whose error case models a Rust `panic`.
Machine integers (`uint`) are modelled as `Nat` with explicit reduction
modulo `2 ^ 64` where the source can wrap, and OS return codes as `Int`
inputs supplied by the environment.
-/

namespace SyncRs

/-- Outcome of a Rust `panic`, carrying the panic message. -/
structure Panic where
  msg : String
deriving DecidableEq, Repr

/-- Primitive events performed by the embedded operations, in order.  Raw
events correspond to calls into the `sys` layer; `flagSet` is a write of a
poison flag; `panicked` marks the point where a panic is raised. -/
inductive Event where
  | rawLock
  | rawTryLock
  | rawUnlock
  | flagSet
  | panicked
  | rawRead
  | rawTryRead
  | rawWrite
  | rawTryWrite
  | rawReadUnlock
  | rawWriteUnlock
  | readClock
  | osTimedWait
  | notifyAll
  | condWaitLoop
deriving DecidableEq, Repr

/-- The word size of the platform: `uint` arithmetic in the source wraps
modulo this value (64-bit platform). -/
def USIZE : Nat := 2 ^ 64

/-! ### Mutex (src/mutex.rs)

State of one `Mutex<T>`: whether the boxed `sys::Mutex` is currently locked,
and the `failed: UnsafeCell<bool>` poison flag.  The protected data plays no
role in the claims and is omitted. -/

/-- State of a `Mutex<T>`: the raw `sys::Mutex` lock bit and the `failed`
poison flag. -/
structure MutexState where
  rawLocked : Bool
  failed : Bool
deriving DecidableEq, Repr

/-- Result of a mutex operation: the Rust return value (or a panic), the
final mutex state, and the trace of primitive events performed. -/
structure MutexStep (α : Type) where
  res : Except Panic α
  state : MutexState
  trace : List Event
deriving Repr

/-- The panic raised by `MutexGuard::new` on a poisoned mutex. -/
def poisonedMutexPanic : Panic :=
  ⟨"poisoned mutex - another task failed inside!"⟩

/-- Embedding of `impl Drop for MutexGuard` (mutex.rs lines 210-220):
if the poison flag is not yet set and `task::failing()` reports that the
current execution is unwinding due to a failure, set the flag; then release
the raw mutex.  `failing` is the value returned by `task::failing()`. -/
def MutexGuard.drop (s : MutexState) (failing : Bool) : MutexState × List Event :=
  let (s1, tr1) :=
    if !s.failed && failing then
      ({ s with failed := true }, [Event.flagSet])
    else
      (s, ([] : List Event))
  ({ s1 with rawLocked := false }, tr1 ++ [Event.rawUnlock])

/-- Embedding of `MutexGuard::new` (mutex.rs lines 185-195): the guard is
constructed first; then, if the poison flag is set, a panic is raised.  The
already-constructed guard is dropped during the unwinding of that panic
(with `task::failing()` returning `true`), which releases the raw mutex. -/
def MutexGuard.new (s : MutexState) : MutexStep Unit :=
  if s.failed then
    let d := MutexGuard.drop s true
    { res := Except.error poisonedMutexPanic,
      state := d.1,
      trace := Event.panicked :: d.2 }
  else
    { res := Except.ok (), state := s, trace := [] }

/-- Embedding of `Mutex::lock` (mutex.rs lines 117-120): first acquire the
raw lock (`self.lock.lock()`), then construct the guard via
`MutexGuard::new`, which performs the poison check. -/
def Mutex.lock (s : MutexState) : MutexStep Unit :=
  let g := MutexGuard.new { s with rawLocked := true }
  { res := g.res, state := g.state, trace := Event.rawLock :: g.trace }

/-- Embedding of `Mutex::try_lock` (mutex.rs lines 135-141) together with
the unix `imp::Mutex::try_lock` (sys/mutex.rs lines 85-87): the raw
non-blocking acquire succeeds exactly when `pthread_mutex_trylock` returns
`0` (the OS return code `r` is an input); on success the guard is
constructed via `MutexGuard::new` exactly as in `lock`, otherwise `None` is
returned with no state change. -/
def Mutex.try_lock (s : MutexState) (r : Int) : MutexStep (Option Unit) :=
  if r = 0 then
    let g := MutexGuard.new { s with rawLocked := true }
    { res := Except.map some g.res,
      state := g.state,
      trace := Event.rawTryLock :: g.trace }
  else
    { res := Except.ok none, state := s, trace := [Event.rawTryLock] }

/-! ### Condition variable (src/condvar.rs)

A `StaticCondvar` stores one `AtomicUint` named `mutex`, 0 being the
unbound sentinel. -/

/-- State of a `StaticCondvar`: the `mutex: AtomicUint` word (0 = unbound
sentinel). -/
structure CondvarState where
  mutex : Nat
deriving DecidableEq, Repr

/-- A `&MutexGuard` argument as seen by `StaticCondvar`: the address of the
guard object itself and the address of the `sys::Mutex` backing it.  Both
are nonzero machine addresses, distinct objects having distinct addresses. -/
structure GuardRef where
  guardAddr : Nat
  mutexAddr : Nat
deriving DecidableEq, Repr

/-- The panic raised by `StaticCondvar::verify` when its compare-and-swap
fails. -/
def twoMutexesPanic : Panic :=
  ⟨"attempted to use a condition variable with two mutexes"⟩

/-- Embedding of `StaticCondvar::verify` (condvar.rs lines 213-222).  The
source takes `let addr = guard as *const _ as uint` - the address of the
guard object, not of the mutex backing it - then, if the stored word differs
from `addr`, performs `compare_and_swap(0, addr)` and panics unless the
previous value was the sentinel 0. -/
def StaticCondvar.verify (s : CondvarState) (guard : GuardRef) :
    Except Panic CondvarState :=
  let addr := guard.guardAddr
  if s.mutex ≠ addr then
    if s.mutex = 0 then
      Except.ok { mutex := addr }
    else
      Except.error twoMutexesPanic
  else
    Except.ok s

/-- Modelled from the spec: `mutex::guard_inner` is called by condvar.rs but
is missing from the mutex.rs revision under src/ (which exposes the
equivalent accessor as `AsSysMutex::as_sys_mutex`); per the spec it returns
the `sys::Mutex` backing the guard, here represented by its address. -/
def guard_inner (guard : GuardRef) : Nat :=
  guard.mutexAddr

/-- Embedding of `StaticCondvar::wait` (condvar.rs lines 165-170): run
`verify` on the guard, then wait on the raw condvar passing the backing
`sys::Mutex`.  Returns the updated condvar state and the address of the raw
mutex handed to the OS wait. -/
def StaticCondvar.wait (s : CondvarState) (guard : GuardRef) :
    Except Panic (CondvarState × Nat) :=
  match StaticCondvar.verify s guard with
  | Except.ok s2 => Except.ok (s2, guard_inner guard)
  | Except.error e => Except.error e

/-! ### Barrier (src/barrier.rs) -/

/-- The `BarrierState` protected by the barrier's internal mutex
(barrier.rs lines 28-32). -/
structure BarrierState where
  count : Nat
  generation_id : Nat
deriving DecidableEq, Repr

/-- What a call to `Barrier::wait` does after updating the state under the
internal mutex: either it enters the condvar wait loop remembering
`local_gen`, or it was the Nth arrival and executed the releaser branch. -/
inductive BarrierOutcome where
  | blocked (localGen : Nat)
  | released
deriving DecidableEq, Repr

/-- The initial state built by `Barrier::new` (barrier.rs lines 39-48):
`count = 0`, `generation_id = 0`. -/
def Barrier.init : BarrierState :=
  { count := 0, generation_id := 0 }

/-- Embedding of the body of `Barrier::wait` (barrier.rs lines 54-70) as a
step function on `BarrierState`, executed under the internal mutex:
read `local_gen`, increment `count` (wrapping `uint` arithmetic), then
either enter the condvar wait loop (if the new count is below
`num_threads`) or reset the count, bump the generation and `notify_all`. -/
def Barrier.waitStep (num_threads : Nat) (s : BarrierState) :
    BarrierState × BarrierOutcome × List Event :=
  let local_gen := s.generation_id
  let s1 := { s with count := (s.count + 1) % USIZE }
  if s1.count < num_threads then
    (s1, BarrierOutcome.blocked local_gen, [Event.condWaitLoop])
  else
    ({ count := 0, generation_id := (s1.generation_id + 1) % USIZE },
     BarrierOutcome.released, [Event.notifyAll])

/-- Embedding of the condition of the `while` loop inside `Barrier::wait`
(barrier.rs lines 61-64): keep waiting while the recorded generation still
equals the current one and the count is below `num_threads`. -/
def Barrier.waitLoopGuard (num_threads local_gen : Nat) (s : BarrierState) : Bool :=
  local_gen == s.generation_id && s.count < num_threads

/-- States of a barrier for `num_threads` parties reachable from the
initial state by arrival steps of `Barrier::wait`. -/
inductive BarrierReachable (num_threads : Nat) : BarrierState → Prop where
  | init : BarrierReachable num_threads Barrier.init
  | step (s : BarrierState) (h : BarrierReachable num_threads s) :
      BarrierReachable num_threads (Barrier.waitStep num_threads s).1

/-! ### Raw platform binding, unix implementation (src/sys)

Each raw operation makes one OS call and checks its return code `r` with
`debug_assert_eq!(r, 0)`.  The return code is an input supplied by the
environment; a failed assertion is a panic. -/

/-- The panic raised by `debug_assert_eq!(r, 0)` on a nonzero OS return
code. -/
def debugAssertZeroPanic : Panic :=
  ⟨"assertion failed: r == 0"⟩

/-- Shared shape of the unix raw bindings: perform the OS call (whose
return code is `r`) and assert that it reported success. -/
def debugAssertZero (r : Int) : Except Panic Unit :=
  if r = 0 then Except.ok () else Except.error debugAssertZeroPanic

/-- Unix `imp::Mutex::lock` (sys/mutex.rs): `pthread_mutex_lock` then
`debug_assert_eq!(r, 0)`. -/
def MutexImp.lock (r : Int) : Except Panic Unit := debugAssertZero r

/-- Unix `imp::Mutex::unlock`: `pthread_mutex_unlock` then
`debug_assert_eq!(r, 0)`. -/
def MutexImp.unlock (r : Int) : Except Panic Unit := debugAssertZero r

/-- Unix `imp::Mutex::destroy`: `pthread_mutex_destroy` then
`debug_assert_eq!(r, 0)`. -/
def MutexImp.destroy (r : Int) : Except Panic Unit := debugAssertZero r

/-- Unix `imp::Mutex::try_lock`: returns `pthread_mutex_trylock(..) == 0`;
every nonzero return code maps to `false`, with no assertion. -/
def MutexImp.try_lock (r : Int) : Bool := r == 0

/-- Unix `imp::Condvar::notify_one`: `pthread_cond_signal` then
`debug_assert_eq!(r, 0)`. -/
def CondvarImp.notify_one (r : Int) : Except Panic Unit := debugAssertZero r

/-- Unix `imp::Condvar::notify_all`: `pthread_cond_broadcast` then
`debug_assert_eq!(r, 0)`. -/
def CondvarImp.notify_all (r : Int) : Except Panic Unit := debugAssertZero r

/-- Unix `imp::Condvar::wait`: `pthread_cond_wait` then
`debug_assert_eq!(r, 0)`. -/
def CondvarImp.wait (r : Int) : Except Panic Unit := debugAssertZero r

/-- Unix `imp::Condvar::destroy`: `pthread_cond_destroy` then
`debug_assert_eq!(r, 0)`. -/
def CondvarImp.destroy (r : Int) : Except Panic Unit := debugAssertZero r

/-- Unix `imp::RWLock::read` (sys/rwlock.rs): `pthread_rwlock_rdlock` then
`debug_assert_eq!(r, 0)`. -/
def RWLockImp.read (r : Int) : Except Panic Unit := debugAssertZero r

/-- Unix `imp::RWLock::write`: `pthread_rwlock_wrlock` then
`debug_assert_eq!(r, 0)`. -/
def RWLockImp.write (r : Int) : Except Panic Unit := debugAssertZero r

/-- Unix `imp::RWLock::read_unlock`: `pthread_rwlock_unlock` then
`debug_assert_eq!(r, 0)`. -/
def RWLockImp.read_unlock (r : Int) : Except Panic Unit := debugAssertZero r

/-- Unix `imp::RWLock::write_unlock`: the source delegates to
`read_unlock`. -/
def RWLockImp.write_unlock (r : Int) : Except Panic Unit := RWLockImp.read_unlock r

/-- Unix `imp::RWLock::destroy`: `pthread_rwlock_destroy` then
`debug_assert_eq!(r, 0)`. -/
def RWLockImp.destroy (r : Int) : Except Panic Unit := debugAssertZero r

/-- Unix `imp::RWLock::try_read`: returns
`pthread_rwlock_tryrdlock(..) == 0`. -/
def RWLockImp.try_read (r : Int) : Bool := r == 0

/-- Unix `imp::RWLock::try_write`: returns
`pthread_rwlock_trywrlock(..) == 0`. -/
def RWLockImp.try_write (r : Int) : Bool := r == 0

/-- The raw-binding operations of the unix implementation that assert on
their OS return code (the `try_*` operations and the timed wait are
separate). -/
inductive RawOp where
  | mutexLock
  | mutexUnlock
  | mutexDestroy
  | cvNotifyOne
  | cvNotifyAll
  | cvWait
  | cvDestroy
  | rwRead
  | rwWrite
  | rwReadUnlock
  | rwWriteUnlock
  | rwDestroy
deriving DecidableEq, Repr

/-- Dispatch a raw-binding operation to its embedding, passing the OS
return code `r`. -/
def runRawOp (op : RawOp) (r : Int) : Except Panic Unit :=
  match op with
  | RawOp.mutexLock => MutexImp.lock r
  | RawOp.mutexUnlock => MutexImp.unlock r
  | RawOp.mutexDestroy => MutexImp.destroy r
  | RawOp.cvNotifyOne => CondvarImp.notify_one r
  | RawOp.cvNotifyAll => CondvarImp.notify_all r
  | RawOp.cvWait => CondvarImp.wait r
  | RawOp.cvDestroy => CondvarImp.destroy r
  | RawOp.rwRead => RWLockImp.read r
  | RawOp.rwWrite => RWLockImp.write r
  | RawOp.rwReadUnlock => RWLockImp.read_unlock r
  | RawOp.rwWriteUnlock => RWLockImp.write_unlock r
  | RawOp.rwDestroy => RWLockImp.destroy r

/-! ### Unix timed wait (src/sys/condvar.rs, `imp::Condvar::wait_timeout`) -/

/-- A `libc::timeval` as filled in by `gettimeofday`. -/
structure Timeval where
  tv_sec : Int
  tv_usec : Int
deriving DecidableEq, Repr

/-- A `libc::timespec` as passed to `pthread_cond_timedwait`. -/
structure Timespec where
  tv_sec : Int
  tv_nsec : Int
deriving DecidableEq, Repr

/-- The panic raised by `assert!(dur >= Duration::nanoseconds(0))`. -/
def negativeDurationPanic : Panic :=
  ⟨"assertion failed: dur >= Duration::nanoseconds(0)"⟩

/-- The panic raised by `abs.num_nanoseconds().unwrap()` when the absolute
deadline does not fit in an `i64` nanosecond count. -/
def unwrapNonePanic : Panic :=
  ⟨"Option::unwrap called on a None value"⟩

/-- The panic raised by `debug_assert_eq!(r as int, libc::ETIMEDOUT as int)`
when the timed wait reports a failure other than timeout. -/
def timedwaitAssertPanic : Panic :=
  ⟨"assertion failed: r == ETIMEDOUT"⟩

/-- Modelled from the spec: `pthread_cond_timedwait` is an external OS call
(not part of this repository).  It atomically releases the mutex, blocks
until a signal or the absolute deadline, re-acquires the mutex before
returning in both cases, and reports its outcome through the return code
`r` (0 for a signal, `ETIMEDOUT` for deadline expiry).  The second
component records that the mutex is held again when the call returns. -/
def pthread_cond_timedwait (r : Int) : Int × Bool :=
  (r, true)

/-- Result of the unix `imp::Condvar::wait_timeout`: the Rust return value
(`true` = woken by signal, `false` = timed out) or a panic, the `timespec`
deadline that was passed to the OS timed wait (`none` if the call never
reached the OS wait), whether the mutex was re-acquired when the OS wait
returned (`none` if the OS wait was never entered), and the trace. -/
structure TimedWaitStep where
  res : Except Panic Bool
  sentDeadline : Option Timespec
  osMutexHeld : Option Bool
  trace : List Event
deriving Repr

/-- Embedding of the unix `imp::Condvar::wait_timeout`
(sys/condvar.rs lines 99-127).  Inputs supplied by the environment: the
wall-clock time `now` that `gettimeofday` will report together with its
return code `rGet`, the requested relative duration `durNs` in nanoseconds,
the return code `r` of the OS timed wait, and the platform's `ETIMEDOUT`
value.  Steps, in source order: assert the duration is non-negative; read
the wall clock; form the absolute deadline `now + dur`, whose nanosecond
count must fit in an `i64` (`num_nanoseconds().unwrap()`), and reinterpret
it `as u64`; split it into a `timespec`; run the OS timed wait; map return
code 0 to `true` and `ETIMEDOUT` to `false`, asserting no other code
occurs. -/
def CondvarImp.wait_timeout (now : Timeval) (rGet : Int) (durNs : Int)
    (r : Int) (etimedout : Int) : TimedWaitStep :=
  if durNs < 0 then
    { res := Except.error negativeDurationPanic,
      sentDeadline := none, osMutexHeld := none, trace := [] }
  else if rGet ≠ 0 then
    { res := Except.error debugAssertZeroPanic,
      sentDeadline := none, osMutexHeld := none, trace := [Event.readClock] }
  else
    let absNs : Int := now.tv_sec * 1000000000 + now.tv_usec * 1000 + durNs
    if absNs < -(2 ^ 63) ∨ 2 ^ 63 - 1 < absNs then
      { res := Except.error unwrapNonePanic,
        sentDeadline := none, osMutexHeld := none, trace := [Event.readClock] }
    else
      let ns : Int := absNs % 2 ^ 64
      let timeout : Timespec :=
        { tv_sec := ns / 1000000000, tv_nsec := ns % 1000000000 }
      let osCall := pthread_cond_timedwait r
      if osCall.1 = 0 then
        { res := Except.ok true,
          sentDeadline := some timeout, osMutexHeld := some osCall.2,
          trace := [Event.readClock, Event.osTimedWait] }
      else if osCall.1 = etimedout then
        { res := Except.ok false,
          sentDeadline := some timeout, osMutexHeld := some osCall.2,
          trace := [Event.readClock, Event.osTimedWait] }
      else
        { res := Except.error timedwaitAssertPanic,
          sentDeadline := some timeout, osMutexHeld := some osCall.2,
          trace := [Event.readClock, Event.osTimedWait] }

/-! ### Reader-writer lock (src/rwlock.rs)

The safe `RWLock` stores only the boxed `sys::RWLock`; it has no poison
flag.  To state the frame property we pair the raw lock state with an
ambient poison flag belonging to some other primitive in the program and
show that no rwlock operation depends on it or changes it. -/

/-- Abstract state of the OS `pthread_rwlock_t` object (an external OS
resource): the number of shared holders and whether an exclusive holder
exists.  Transitions model the post-acquisition effect of each call; the
blocking of `read`/`write` until the lock is available happens inside the
OS and is outside this sequential model. -/
structure RawRWState where
  readers : Nat
  writer : Bool
deriving DecidableEq, Repr

/-- A raw rwlock state paired with an ambient poison flag (owned by some
other primitive; the `RWLock` itself stores none). -/
structure RWWorld where
  raw : RawRWState
  poison : Bool
deriving DecidableEq, Repr

/-- Embedding of `RWLock::read` (rwlock.rs): call the raw `read` and build
a `ReadGuard`; there is no check of any kind. -/
def RWLock.read (w : RWWorld) : RWWorld × List Event :=
  ({ w with raw := { w.raw with readers := w.raw.readers + 1 } }, [Event.rawRead])

/-- Embedding of `RWLock::try_read`: if the raw `try_read` succeeds (OS
code `r = 0`) return a guard, else `None`; no other check. -/
def RWLock.try_read (w : RWWorld) (r : Int) :
    Option Unit × RWWorld × List Event :=
  if r = 0 then
    (some (), { w with raw := { w.raw with readers := w.raw.readers + 1 } },
     [Event.rawTryRead])
  else
    (none, w, [Event.rawTryRead])

/-- Embedding of `RWLock::write`: call the raw `write` and build a
`WriteGuard`; there is no check of any kind. -/
def RWLock.write (w : RWWorld) : RWWorld × List Event :=
  ({ w with raw := { w.raw with writer := true } }, [Event.rawWrite])

/-- Embedding of `RWLock::try_write`: if the raw `try_write` succeeds (OS
code `r = 0`) return a guard, else `None`; no other check. -/
def RWLock.try_write (w : RWWorld) (r : Int) :
    Option Unit × RWWorld × List Event :=
  if r = 0 then
    (some (), { w with raw := { w.raw with writer := true } },
     [Event.rawTryWrite])
  else
    (none, w, [Event.rawTryWrite])

set_option linter.unusedVariables false in
/-- Embedding of `impl Drop for ReadGuard` (rwlock.rs lines 230-235): the
body is exactly `self.lock.read_unlock()`.  The `failing` argument is the
ambient unwinding status at destruction time; the source never consults
it. -/
def ReadGuard.drop (w : RWWorld) (failing : Bool) : RWWorld × List Event :=
  ({ w with raw := { w.raw with readers := w.raw.readers - 1 } },
   [Event.rawReadUnlock])

set_option linter.unusedVariables false in
/-- Embedding of `impl Drop for WriteGuard` (rwlock.rs lines 237-242): the
body is exactly `self.lock.write_unlock()`.  The `failing` argument is the
ambient unwinding status at destruction time; the source never consults
it. -/
def WriteGuard.drop (w : RWWorld) (failing : Bool) : RWWorld × List Event :=
  ({ w with raw := { w.raw with writer := false } },
   [Event.rawWriteUnlock])

/-- The operations of the safe `RWLock` layer, with their environment
inputs (OS return codes for the `try` variants, the unwinding status for
guard destruction). -/
inductive RWOp where
  | read
  | write
  | tryRead (r : Int)
  | tryWrite (r : Int)
  | readDrop (failing : Bool)
  | writeDrop (failing : Bool)
deriving DecidableEq, Repr

/-- Run an `RWLock` operation, returning the final world and the trace. -/
def RWLock.run (op : RWOp) (w : RWWorld) : RWWorld × List Event :=
  match op with
  | RWOp.read => RWLock.read w
  | RWOp.write => RWLock.write w
  | RWOp.tryRead r => ((RWLock.try_read w r).2.1, (RWLock.try_read w r).2.2)
  | RWOp.tryWrite r => ((RWLock.try_write w r).2.1, (RWLock.try_write w r).2.2)
  | RWOp.readDrop failing => ReadGuard.drop w failing
  | RWOp.writeDrop failing => WriteGuard.drop w failing

/-! ## Theorems -/

/-- C2: on a poisoned mutex, `lock` first acquires the raw mutex
(`rawLock` is the first event) and only then raises the poisoning panic
(`panicked` follows it); the guard constructed before the panic is dropped
on the unwinding path, releasing the raw mutex (`rawUnlock` is the last
event), so the final state does not hold the raw lock. -/
theorem mutex_lock_poisoned_acquires_then_fails_then_releases
    (s : MutexState) (h : s.failed = true) :
    Mutex.lock s =
      { res := Except.error poisonedMutexPanic,
        state := { rawLocked := false, failed := true },
        trace := [Event.rawLock, Event.panicked, Event.rawUnlock] } := by
  simp [Mutex.lock, MutexGuard.new, MutexGuard.drop, h]

/-- Witness for C2 at the concrete poisoned state. -/
theorem mutex_lock_poisoned_witness :
    Mutex.lock { rawLocked := false, failed := true } =
      { res := Except.error poisonedMutexPanic,
        state := { rawLocked := false, failed := true },
        trace := [Event.rawLock, Event.panicked, Event.rawUnlock] } :=
  mutex_lock_poisoned_acquires_then_fails_then_releases
    { rawLocked := false, failed := true } rfl

/-- C3: dropping a mutex guard sets the poison flag exactly when the
execution is unwinding due to a failure and the flag was not already set
(the resulting flag is the disjunction of the old flag and the unwinding
status); `lock` and `try_lock` never change the flag, so no mutex operation
clears it; and on the poisoning drop the flag write strictly precedes the
raw-mutex release in the event trace. -/
theorem mutex_guard_drop_poison_sticky_ordered
    (s : MutexState) (failing : Bool) (r : Int) :
    ((MutexGuard.drop s failing).1.failed = (s.failed || failing)) ∧
    (s.failed = false →
      ((MutexGuard.drop s failing).1.failed = true ↔ failing = true)) ∧
    ((Mutex.lock s).state.failed = s.failed) ∧
    ((Mutex.try_lock s r).state.failed = s.failed) ∧
    (s.failed = false → failing = true →
      (MutexGuard.drop s failing).2 = [Event.flagSet, Event.rawUnlock]) := by
  refine ⟨?_, ?_, ?_, ?_, ?_⟩
  · cases hs : s.failed <;> cases failing <;>
      simp [MutexGuard.drop, hs]
  · intro hs
    cases failing <;> simp [MutexGuard.drop, hs]
  · cases hs : s.failed <;>
      simp [Mutex.lock, MutexGuard.new, MutexGuard.drop, hs]
  · cases hs : s.failed <;>
      by_cases hr : r = 0 <;>
      simp [Mutex.try_lock, MutexGuard.new, MutexGuard.drop, hs, hr]
  · intro hs hf
    simp [MutexGuard.drop, hs, hf]

/-- Witness for C3: an unpoisoned guard dropped during unwinding produces
the flag write strictly before the raw unlock. -/
theorem mutex_guard_drop_poison_witness :
    (MutexGuard.drop { rawLocked := true, failed := false } true).2 =
      [Event.flagSet, Event.rawUnlock] :=
  (mutex_guard_drop_poison_sticky_ordered
    { rawLocked := true, failed := false } true 0).2.2.2.2 rfl rfl

/-- C7: `try_lock` returns `None` exactly when the raw non-blocking
acquire reports a nonzero OS code (any nonzero code, contention or
otherwise, is indistinguishable); in that case it returns immediately with
the state unchanged; and when the raw acquire succeeds it performs exactly
the same poison check as `lock`, with the same resulting value (up to the
`Option` wrapper) and state. -/
theorem mutex_try_lock_spec (s : MutexState) (r : Int) :
    ((Mutex.try_lock s r).res = Except.ok none ↔ r ≠ 0) ∧
    (r ≠ 0 →
      Mutex.try_lock s r =
        { res := Except.ok none, state := s, trace := [Event.rawTryLock] }) ∧
    (r = 0 →
      (Mutex.try_lock s r).res = Except.map some (Mutex.lock s).res ∧
      (Mutex.try_lock s r).state = (Mutex.lock s).state) := by
  refine ⟨?_, ?_, ?_⟩
  · by_cases hr : r = 0
    · cases hs : s.failed <;>
        simp [Mutex.try_lock, MutexGuard.new, MutexGuard.drop, hs, hr,
          Except.map]
    · simp [Mutex.try_lock, hr]
  · intro hr
    simp [Mutex.try_lock, hr]
  · intro hr
    cases hs : s.failed <;>
      simp [Mutex.try_lock, Mutex.lock, MutexGuard.new, MutexGuard.drop,
        hs, hr, Except.map]

/-- Witness for C7 at a busy raw mutex (OS code 16, `EBUSY`). -/
theorem mutex_try_lock_witness :
    Mutex.try_lock { rawLocked := true, failed := false } 16 =
      { res := Except.ok none,
        state := { rawLocked := true, failed := false },
        trace := [Event.rawTryLock] } :=
  (mutex_try_lock_spec { rawLocked := true, failed := false } 16).2.1
    (by decide)

/-- C1 (divergence of the code from the claim): `StaticCondvar::verify`
binds and compares the address of the guard object, not of the mutex
backing it.  Concretely: a first `wait` through a guard at address 1 backed
by the mutex at address 10 succeeds and stores 1 (the guard address, not
the claimed mutex address 10) in the condvar's bound word; a second `wait`
through a different guard (address 2) backed by the very same mutex
(address 10) then panics with the two-mutexes message, although only one
mutex was ever used - contradicting both the claim and the function's own
documentation. -/
theorem condvar_wait_same_mutex_panics :
    StaticCondvar.wait { mutex := 0 } { guardAddr := 1, mutexAddr := 10 } =
      Except.ok ({ mutex := 1 }, 10) ∧
    StaticCondvar.wait { mutex := 1 } { guardAddr := 2, mutexAddr := 10 } =
      Except.error twoMutexesPanic := by
  constructor <;> rfl

/-- C4 (counterexample to the claim as stated): the generation counter is a
machine `uint` and the increment wraps.  For a one-party barrier in the
state with generation `2 ^ 64 - 1`, the releasing step sets the generation
to 0, which is not the old generation incremented by exactly one. -/
theorem barrier_generation_wrap_counterexample :
    (Barrier.waitStep 1 { count := 0, generation_id := USIZE - 1 }).1 =
      { count := 0, generation_id := 0 } ∧
    ({ count := 0, generation_id := USIZE - 1 } : BarrierState).generation_id
      + 1 ≠ 0 := by
  constructor
  · decide
  · norm_num [USIZE]

/-- C4 (amended): `Barrier::wait`, as a step function on
`{count, generation}` executed under the internal mutex, records the
caller's generation and increments `count` modulo the machine word; if the
new count is below `num_threads` the caller enters the condvar wait loop,
whose guard holds exactly while the recorded generation equals the current
one and the count is below `num_threads`; otherwise it resets the count to
0, increments the generation by one modulo the machine word, and executes
`notify_all`. -/
theorem barrier_wait_step_spec (N : Nat) (s : BarrierState) :
    ((s.count + 1) % USIZE < N →
      Barrier.waitStep N s =
        ({ count := (s.count + 1) % USIZE, generation_id := s.generation_id },
         BarrierOutcome.blocked s.generation_id, [Event.condWaitLoop])) ∧
    (N ≤ (s.count + 1) % USIZE →
      Barrier.waitStep N s =
        ({ count := 0, generation_id := (s.generation_id + 1) % USIZE },
         BarrierOutcome.released, [Event.notifyAll])) ∧
    (∀ localGen t, Barrier.waitLoopGuard N localGen t = true ↔
      localGen = t.generation_id ∧ t.count < N) := by
  refine ⟨?_, ?_, ?_⟩
  · intro h
    simp [Barrier.waitStep, h]
  · intro h
    simp [Barrier.waitStep, Nat.not_lt.mpr h]
  · intro localGen t
    simp [Barrier.waitLoopGuard]

/-- Witness for C4: with two parties, the first arrival from the initial
state records generation 0 and blocks with count 1. -/
theorem barrier_wait_step_witness :
    Barrier.waitStep 2 Barrier.init =
      ({ count := (0 + 1) % USIZE, generation_id := 0 },
       BarrierOutcome.blocked 0, [Event.condWaitLoop]) :=
  (barrier_wait_step_spec 2 Barrier.init).1 (by decide)

/-- C5 (counterexample to the claim as stated): the claim quantifies over
every constructible party count, but `Barrier::new(0)` is accepted, and for
it the initial state - reachable by zero steps - already violates the
invariant `count < N`. -/
theorem barrier_invariant_counterexample :
    BarrierReachable 0 Barrier.init ∧ ¬ Barrier.init.count < 0 :=
  ⟨BarrierReachable.init, by simp⟩

/-- C5 (amended): for every barrier with party count `N ≥ 1` (a machine
`uint`, so `N < 2 ^ 64`), every state reachable from the initial state
`{count := 0, generation := 0}` by wait steps satisfies `count < N`
(`0 ≤ count` holds as counts are naturals); the step taken from a reachable
state executes the releaser branch exactly when it is the Nth arrival
(`count + 1 = N`), and it resets the count to 0 exactly on that step, the
same step that bumps the generation. -/
theorem barrier_invariant (N : Nat) (h1 : 1 ≤ N) (h2 : N < USIZE)
    (s : BarrierState) (hr : BarrierReachable N s) :
    s.count < N ∧
    ((Barrier.waitStep N s).2.1 = BarrierOutcome.released ↔ s.count + 1 = N) ∧
    ((Barrier.waitStep N s).1.count = 0 ↔ s.count + 1 = N) ∧
    (s.count + 1 = N →
      (Barrier.waitStep N s).1 =
        { count := 0, generation_id := (s.generation_id + 1) % USIZE }) := by
  have hcount : ∀ t, BarrierReachable N t → t.count < N := by
    intro t ht
    induction ht with
    | init => exact h1
    | step u hu ih =>
      by_cases hb : (u.count + 1) % USIZE < N
      · simp [Barrier.waitStep, hb]
      · simpa [Barrier.waitStep, hb] using h1
  have hc : s.count < N := hcount s hr
  have hmod : (s.count + 1) % USIZE = s.count + 1 :=
    Nat.mod_eq_of_lt (lt_of_le_of_lt hc h2)
  refine ⟨hc, ?_, ?_, ?_⟩
  · constructor
    · intro hrel
      by_cases hb : (s.count + 1) % USIZE < N
      · simp [Barrier.waitStep, hb] at hrel
      · rw [hmod] at hb
        omega
    · intro hN
      have hb : ¬ (s.count + 1) % USIZE < N := by
        rw [hmod, hN]; omega
      simp [Barrier.waitStep, hb]
  · constructor
    · intro h0
      by_cases hb : (s.count + 1) % USIZE < N
      · rw [hmod] at hb
        simp [Barrier.waitStep, hb, hmod] at h0
      · rw [hmod] at hb
        omega
    · intro hN
      have hb : ¬ (s.count + 1) % USIZE < N := by
        rw [hmod, hN]; omega
      simp [Barrier.waitStep, hb]
  · intro hN
    have hb : ¬ (s.count + 1) % USIZE < N := by
      rw [hmod, hN]; omega
    simp [Barrier.waitStep, hb]

/-- Witness for C5: a two-party barrier after one arrival is in the
reachable state `{count := 1, generation := 0}`, which satisfies the
invariant and whose next arrival is the releasing one. -/
theorem barrier_invariant_witness :
    ({ count := 1, generation_id := 0 } : BarrierState).count < 2 ∧
    ((Barrier.waitStep 2 { count := 1, generation_id := 0 }).2.1 =
        BarrierOutcome.released ↔
      ({ count := 1, generation_id := 0 } : BarrierState).count + 1 = 2) ∧
    ((Barrier.waitStep 2 { count := 1, generation_id := 0 }).1.count = 0 ↔
      ({ count := 1, generation_id := 0 } : BarrierState).count + 1 = 2) ∧
    (({ count := 1, generation_id := 0 } : BarrierState).count + 1 = 2 →
      (Barrier.waitStep 2 { count := 1, generation_id := 0 }).1 =
        { count := 0, generation_id := (0 + 1) % USIZE }) := by
  have h : BarrierReachable 2 { count := 1, generation_id := 0 } := by
    have h0 := @BarrierReachable.step 2 Barrier.init (@BarrierReachable.init 2)
    have he : (Barrier.waitStep 2 Barrier.init).1 =
        { count := 1, generation_id := 0 } := by decide
    rwa [he] at h0
  exact barrier_invariant 2 (by norm_num) (by norm_num [USIZE])
    { count := 1, generation_id := 0 } h

/-- Helper: two `Except.error` values with provably different panic
messages are distinct. -/
theorem except_error_ne_of_msg_ne {α : Type} {a b : Panic}
    (h : ¬ a.msg = b.msg) : (Except.error a : Except Panic α) ≠ Except.error b := by
  intro hcontra
  apply h
  cases hcontra
  rfl

/-- Helper: on a successful clock read and a representable non-negative
deadline, the unix `wait_timeout` reaches the OS timed wait with the
deadline `now + dur` split into a `timespec`, and maps the OS return code
0 to `true`, `ETIMEDOUT` to `false`, and anything else to the assertion
panic. -/
theorem wait_timeout_eq_of_valid (now : Timeval) (durNs r etimedout : Int)
    (h3 : 0 ≤ durNs) (h1 : 0 ≤ now.tv_sec) (h2 : 0 ≤ now.tv_usec)
    (h4 : now.tv_sec * 1000000000 + now.tv_usec * 1000 + durNs ≤ 2 ^ 63 - 1) :
    CondvarImp.wait_timeout now 0 durNs r etimedout =
      { res := if r = 0 then Except.ok true
               else if r = etimedout then Except.ok false
               else Except.error timedwaitAssertPanic,
        sentDeadline := some
          { tv_sec :=
              (now.tv_sec * 1000000000 + now.tv_usec * 1000 + durNs) / 1000000000,
            tv_nsec :=
              (now.tv_sec * 1000000000 + now.tv_usec * 1000 + durNs) % 1000000000 },
        osMutexHeld := some true,
        trace := [Event.readClock, Event.osTimedWait] } := by
  have hnn : 0 ≤ now.tv_sec * 1000000000 + now.tv_usec * 1000 + durNs := by
    have ha : 0 ≤ now.tv_sec * 1000000000 := by positivity
    have hb : 0 ≤ now.tv_usec * 1000 := by positivity
    omega
  have hrange : ¬ (now.tv_sec * 1000000000 + now.tv_usec * 1000 + durNs <
      -(2 ^ 63) ∨
      2 ^ 63 - 1 < now.tv_sec * 1000000000 + now.tv_usec * 1000 + durNs) := by
    push_neg
    constructor
    · omega
    · exact h4
  have hmod : (now.tv_sec * 1000000000 + now.tv_usec * 1000 + durNs) % 2 ^ 64 =
      now.tv_sec * 1000000000 + now.tv_usec * 1000 + durNs :=
    Int.emod_eq_of_lt hnn (by omega)
  simp only [CondvarImp.wait_timeout, pthread_cond_timedwait]
  rw [if_neg (not_lt.mpr h3), if_neg (by simp), if_neg hrange, hmod]
  by_cases hr0 : r = 0
  · simp [hr0]
  · by_cases hrt : r = etimedout
    · subst hrt
      simp [hr0]
    · simp [hr0, hrt]

/-- C6: for every `wait_timeout` call with a non-negative duration, a valid
wall-clock reading and a deadline that fits the nanosecond range, the
absolute deadline handed to the OS timed wait equals the wall-clock time
read at entry plus the requested duration (as a well-formed `timespec`);
the call returns `true` exactly when the OS wait reports a wakeup by signal
(code 0) and `false` exactly when it reports the deadline elapsed
(`ETIMEDOUT`); and the guard's mutex is re-acquired when the OS wait
returns, in both cases. -/
theorem condvar_wait_timeout_deadline (now : Timeval) (durNs r etimedout : Int)
    (h1 : 0 ≤ now.tv_sec) (h2 : 0 ≤ now.tv_usec) (h3 : 0 ≤ durNs)
    (h4 : now.tv_sec * 1000000000 + now.tv_usec * 1000 + durNs ≤ 2 ^ 63 - 1)
    (h5 : etimedout ≠ 0) :
    ∃ dl : Timespec,
      (CondvarImp.wait_timeout now 0 durNs r etimedout).sentDeadline = some dl ∧
      dl.tv_sec * 1000000000 + dl.tv_nsec =
        now.tv_sec * 1000000000 + now.tv_usec * 1000 + durNs ∧
      0 ≤ dl.tv_nsec ∧ dl.tv_nsec < 1000000000 ∧
      ((CondvarImp.wait_timeout now 0 durNs r etimedout).res =
          Except.ok true ↔ r = 0) ∧
      ((CondvarImp.wait_timeout now 0 durNs r etimedout).res =
          Except.ok false ↔ r = etimedout) ∧
      (CondvarImp.wait_timeout now 0 durNs r etimedout).osMutexHeld =
        some true := by
  rw [wait_timeout_eq_of_valid now durNs r etimedout h3 h1 h2 h4]
  refine ⟨_, rfl, ?_, ?_, ?_, ?_, ?_, rfl⟩
  · dsimp only
    omega
  · dsimp only
    omega
  · dsimp only
    omega
  · by_cases hr0 : r = 0
    · simp [hr0]
    · by_cases hrt : r = etimedout
      · subst hrt
        simp [hr0]
      · simp [hr0, hrt]
  · by_cases hr0 : r = 0
    · subst hr0
      simp [Ne.symm h5]
    · by_cases hrt : r = etimedout
      · subst hrt
        simp [hr0]
      · simp [hr0, hrt]

/-- Witness for C6 at a concrete clock reading, duration and signal
wakeup. -/
theorem condvar_wait_timeout_witness :
    ∃ dl : Timespec,
      (CondvarImp.wait_timeout { tv_sec := 1, tv_usec := 2 } 0 5 0
          110).sentDeadline = some dl ∧
      dl.tv_sec * 1000000000 + dl.tv_nsec = 1 * 1000000000 + 2 * 1000 + 5 ∧
      0 ≤ dl.tv_nsec ∧ dl.tv_nsec < 1000000000 ∧
      ((CondvarImp.wait_timeout { tv_sec := 1, tv_usec := 2 } 0 5 0 110).res =
          Except.ok true ↔ (0 : Int) = 0) ∧
      ((CondvarImp.wait_timeout { tv_sec := 1, tv_usec := 2 } 0 5 0 110).res =
          Except.ok false ↔ (0 : Int) = 110) ∧
      (CondvarImp.wait_timeout { tv_sec := 1, tv_usec := 2 } 0 5 0
          110).osMutexHeld = some true :=
  condvar_wait_timeout_deadline { tv_sec := 1, tv_usec := 2 } 5 0 110
    (by norm_num) (by norm_num) (by norm_num) (by norm_num) (by norm_num)

/-- C10: a negative duration makes the unix `wait_timeout` fail its entry
assertion before reading the wall clock or entering any blocking call (the
event trace is empty), and with a non-negative duration that assertion
branch is unreachable - the result is never the negative-duration assertion
panic, whatever the clock reading and OS return codes are. -/
theorem wait_timeout_negative_duration_asserts (now : Timeval)
    (rGet durNs r etimedout : Int) :
    (durNs < 0 →
      CondvarImp.wait_timeout now rGet durNs r etimedout =
        { res := Except.error negativeDurationPanic,
          sentDeadline := none, osMutexHeld := none, trace := [] }) ∧
    (0 ≤ durNs →
      (CondvarImp.wait_timeout now rGet durNs r etimedout).res ≠
        Except.error negativeDurationPanic) := by
  constructor
  · intro h
    simp [CondvarImp.wait_timeout, h]
  · intro h
    simp only [CondvarImp.wait_timeout, pthread_cond_timedwait]
    rw [if_neg (not_lt.mpr h)]
    by_cases hg : rGet ≠ 0
    · rw [if_pos hg]
      exact except_error_ne_of_msg_ne (by decide)
    · rw [if_neg hg]
      split
      · exact except_error_ne_of_msg_ne (by decide)
      · split
        · simp
        · split
          · simp
          · exact except_error_ne_of_msg_ne (by decide)

/-- Witness for C10 at a concrete negative duration and at a concrete
non-negative one. -/
theorem wait_timeout_negative_duration_witness :
    CondvarImp.wait_timeout { tv_sec := 0, tv_usec := 0 } 0 (-1) 0 110 =
      { res := Except.error negativeDurationPanic,
        sentDeadline := none, osMutexHeld := none, trace := [] } ∧
    (CondvarImp.wait_timeout { tv_sec := 0, tv_usec := 0 } 0 7 0 110).res ≠
      Except.error negativeDurationPanic :=
  ⟨(wait_timeout_negative_duration_asserts
      { tv_sec := 0, tv_usec := 0 } 0 (-1) 0 110).1 (by norm_num),
   (wait_timeout_negative_duration_asserts
      { tv_sec := 0, tv_usec := 0 } 0 7 0 110).2 (by norm_num)⟩

/-- C9: every raw-binding operation that can report an OS failure (mutex
lock/unlock/destroy, condvar notify/wait/destroy, rwlock read/write/both
unlocks/destroy) turns every nonzero OS return code into an assertion panic
and returns normally only on 0; the timed wait additionally maps exactly
the `ETIMEDOUT` code to the normal return value `false`, panicking on every
other nonzero code. -/
theorem raw_binding_asserts_on_failure (op : RawOp) (r : Int) (now : Timeval)
    (durNs etimedout : Int) :
    (r ≠ 0 → runRawOp op r = Except.error debugAssertZeroPanic) ∧
    (runRawOp op 0 = Except.ok ()) ∧
    (0 ≤ durNs → 0 ≤ now.tv_sec → 0 ≤ now.tv_usec →
      now.tv_sec * 1000000000 + now.tv_usec * 1000 + durNs ≤ 2 ^ 63 - 1 →
      r ≠ 0 → r ≠ etimedout →
      (CondvarImp.wait_timeout now 0 durNs r etimedout).res =
        Except.error timedwaitAssertPanic) ∧
    (0 ≤ durNs → 0 ≤ now.tv_sec → 0 ≤ now.tv_usec →
      now.tv_sec * 1000000000 + now.tv_usec * 1000 + durNs ≤ 2 ^ 63 - 1 →
      etimedout ≠ 0 →
      (CondvarImp.wait_timeout now 0 durNs etimedout etimedout).res =
        Except.ok false) := by
  refine ⟨?_, ?_, ?_, ?_⟩
  · intro hr
    cases op <;>
      simp [runRawOp, MutexImp.lock, MutexImp.unlock, MutexImp.destroy,
        CondvarImp.notify_one, CondvarImp.notify_all, CondvarImp.wait,
        CondvarImp.destroy, RWLockImp.read, RWLockImp.write,
        RWLockImp.read_unlock, RWLockImp.write_unlock, RWLockImp.destroy,
        debugAssertZero, hr]
  · cases op <;>
      simp [runRawOp, MutexImp.lock, MutexImp.unlock, MutexImp.destroy,
        CondvarImp.notify_one, CondvarImp.notify_all, CondvarImp.wait,
        CondvarImp.destroy, RWLockImp.read, RWLockImp.write,
        RWLockImp.read_unlock, RWLockImp.write_unlock, RWLockImp.destroy,
        debugAssertZero]
  · intro h3 h1 h2 h4 hr hrt
    rw [wait_timeout_eq_of_valid now durNs r etimedout h3 h1 h2 h4]
    simp [hr, hrt]
  · intro h3 h1 h2 h4 he
    rw [wait_timeout_eq_of_valid now durNs etimedout etimedout h3 h1 h2 h4]
    simp [he]

/-- Witness for C9: `pthread_mutex_lock` reporting `EINVAL` (22) panics,
reporting 0 succeeds; the timed wait with code 22 panics and with the
`ETIMEDOUT` code (110) returns `false`. -/
theorem raw_binding_asserts_witness :
    runRawOp RawOp.mutexLock 22 = Except.error debugAssertZeroPanic ∧
    runRawOp RawOp.mutexLock 0 = Except.ok () ∧
    (CondvarImp.wait_timeout { tv_sec := 0, tv_usec := 0 } 0 0 22 110).res =
      Except.error timedwaitAssertPanic ∧
    (CondvarImp.wait_timeout { tv_sec := 0, tv_usec := 0 } 0 0 110 110).res =
      Except.ok false :=
  ⟨(raw_binding_asserts_on_failure RawOp.mutexLock 22
      { tv_sec := 0, tv_usec := 0 } 0 110).1 (by norm_num),
   (raw_binding_asserts_on_failure RawOp.mutexLock 0
      { tv_sec := 0, tv_usec := 0 } 0 110).2.1,
   (raw_binding_asserts_on_failure RawOp.mutexLock 22
      { tv_sec := 0, tv_usec := 0 } 0 110).2.2.1 (by norm_num) (by norm_num)
      (by norm_num) (by norm_num) (by norm_num) (by norm_num),
   (raw_binding_asserts_on_failure RawOp.mutexLock 22
      { tv_sec := 0, tv_usec := 0 } 0 110).2.2.2 (by norm_num) (by norm_num)
      (by norm_num) (by norm_num) (by norm_num)⟩

/-- C8: no `RWLock` operation reads or writes any poison flag: every
operation leaves the ambient poison flag unchanged, its effect on the raw
lock and its event trace are independent of that flag, no trace contains a
poison-flag write or a panic, guard destruction - failing or not - performs
exactly the one corresponding raw unlock, and after a write guard is
dropped during a failure every subsequent try acquire still succeeds
normally. -/
theorem rwlock_no_poison (op : RWOp) (w : RWWorld) (p f : Bool) :
    ((RWLock.run op w).1.poison = w.poison) ∧
    ((RWLock.run op { raw := w.raw, poison := p }).1.raw =
      (RWLock.run op w).1.raw) ∧
    ((RWLock.run op { raw := w.raw, poison := p }).2 = (RWLock.run op w).2) ∧
    (((RWLock.run op w).2.all fun e =>
        !(e == Event.flagSet) && !(e == Event.panicked)) = true) ∧
    (RWLock.run (RWOp.writeDrop f) w = RWLock.run (RWOp.writeDrop false) w) ∧
    (RWLock.run (RWOp.readDrop f) w = RWLock.run (RWOp.readDrop false) w) ∧
    ((RWLock.run (RWOp.writeDrop f) w).2 = [Event.rawWriteUnlock]) ∧
    ((RWLock.run (RWOp.readDrop f) w).2 = [Event.rawReadUnlock]) ∧
    ((RWLock.try_write (RWLock.run (RWOp.writeDrop f) w).1 0).1 = some ()) ∧
    ((RWLock.try_read (RWLock.run (RWOp.writeDrop f) w).1 0).1 = some ()) := by
  refine ⟨?_, ?_, ?_, ?_, ?_, ?_, ?_, ?_, ?_, ?_⟩ <;>
    cases op <;>
    simp [RWLock.run, RWLock.read, RWLock.write, RWLock.try_read,
      RWLock.try_write, ReadGuard.drop, WriteGuard.drop] <;>
    split <;>
    simp

end SyncRs
